import Mathlib

/-!
# Verification of `src/config/settings.py` (crypto-trading-agents)

Shallow embedding of the pydantic-settings based configuration resolver.
Filesystem paths are modelled as lists of components relative to the
filesystem root; the filesystem itself is the list of directories that
exist.  The module file is `src/config/settings.py`, so the
`default_factory` expressions `Path(__file__).parent.parent` and
`Path(__file__).parent.parent / "logs"` evaluate to `src` and `src/logs`.
-/

set_option autoImplicit false

namespace CryptoSettings

/-- A filesystem path, as its list of components from the root. -/
abbrev Path := List String

/-- The `p.parent` operation of `pathlib`. -/
def pathParent (p : Path) : Path := p.dropLast

/-- The `p / c` operation of `pathlib`. -/
def pathChild (p : Path) (c : String) : Path := p ++ [c]

/-- All initial segments of a path, from `[]` up to the path itself
(the directories `mkdir(parents=True)` has to ensure). -/
def initialSegs : Path → List Path
  | [] => [[]]
  | c :: rest => [] :: (initialSegs rest).map (fun q => c :: q)

/-- The filesystem: the set of directories that currently exist. -/
abbrev FS := List Path

/-- Operation `pathlib.Path.mkdir(parents=..., exist_ok=...)` over the directory
model: an existing target errors unless `exist_ok`; a missing parent
errors unless `parents`; otherwise the target (and, with `parents`, all
missing ancestors) is created. -/
def mkdir (fs : FS) (p : Path) (parents exist_ok : Bool) : Except String FS :=
  if p ∈ fs then
    if exist_ok then .ok fs else .error "FileExistsError"
  else if parents then
    .ok (fs ++ (initialSegs p).filter (fun q => decide (q ∉ fs)))
  else if pathParent p ∈ fs then
    .ok (fs ++ [p])
  else
    .error "FileNotFoundError"

/-- The path `Path(__file__)` for `src/config/settings.py`. -/
def moduleFile : Path := ["src", "config", "settings.py"]

/-- The path `Path(__file__).parent.parent`, the `default_factory` of `project_root`. -/
def defaultProjectRoot : Path := pathParent (pathParent moduleFile)

/-- The path `Path(__file__).parent.parent / "logs"`, the `default_factory` of `logs_dir`. -/
def defaultLogsDir : Path := pathChild (pathParent (pathParent moduleFile)) "logs"

/-- The declared default of `news_sources`. -/
def defaultNewsSources : List String :=
  ["https://cryptonews.com/news/feed/",
   "https://www.coindesk.com/arc/outboundfeeds/rss/",
   "https://cointelegraph.com/rss"]

/-- ASCII `str.upper()`. -/
def strUpper (s : String) : String := ⟨s.data.map Char.toUpper⟩

/-- ASCII `str.lower()`. -/
def strLower (s : String) : String := ⟨s.data.map Char.toLower⟩

/-- Errors raised during resolution, mirroring pydantic's error kinds for
this schema: a missing required field, or a `ValueError` raised by a
`@validator` (carrying the f-string's fixed text and the interpolated
list of legal values), or an `OSError` from `mkdir`. -/
inductive ResolveError where
  | missingRequired (field : String)
  | valueError (msg : String) (valid : List String)
  | osError (msg : String)
  deriving Repr, DecidableEq

/-- The raw input to one `Settings()` construction: for each declared
field, the value supplied by the environment (process environment or
`.env` file, already coerced to the field's declared type), or `none`
when no input names the field.  Unrecognized keys are ignored
(`extra="ignore"`), so they do not appear. -/
structure RawInput where
  grok_api_key : Option String := none
  deepseek_api_key : Option String := none
  mcp_server_url : Option String := none
  mcp_timeout : Option Int := none
  news_sources : Option (List String) := none
  cryptopanic_api_key : Option String := none
  twitter_bearer_token : Option String := none
  reddit_client_id : Option String := none
  reddit_client_secret : Option String := none
  reddit_user_agent : Option String := none
  langsmith_api_key : Option String := none
  langsmith_project : Option String := none
  langsmith_tracing : Option Bool := none
  log_level : Option String := none
  cache_enabled : Option Bool := none
  cache_ttl : Option Int := none
  max_retries : Option Int := none
  request_timeout : Option Int := none
  default_chain : Option String := none
  default_risk_profile : Option String := none
  debate_rounds : Option Int := none
  project_root : Option Path := none
  logs_dir : Option Path := none
  deriving Repr, DecidableEq

/-- The resolved configuration value set (`class Settings`). -/
structure Settings where
  grok_api_key : String
  deepseek_api_key : Option String
  mcp_server_url : String
  mcp_timeout : Int
  news_sources : List String
  cryptopanic_api_key : Option String
  twitter_bearer_token : Option String
  reddit_client_id : Option String
  reddit_client_secret : Option String
  reddit_user_agent : String
  langsmith_api_key : Option String
  langsmith_project : String
  langsmith_tracing : Bool
  log_level : String
  cache_enabled : Bool
  cache_ttl : Int
  max_retries : Int
  request_timeout : Int
  default_chain : String
  default_risk_profile : String
  debate_rounds : Int
  project_root : Path
  logs_dir : Path
  deriving Repr, DecidableEq

/-- Method `Settings.has_twitter_config`. -/
def Settings.has_twitter_config (s : Settings) : Bool :=
  s.twitter_bearer_token.isSome

/-- Method `Settings.has_reddit_config`. -/
def Settings.has_reddit_config (s : Settings) : Bool :=
  s.reddit_client_id.isSome && s.reddit_client_secret.isSome

/-- Method `Settings.has_langsmith_config`. -/
def Settings.has_langsmith_config (s : Settings) : Bool :=
  s.langsmith_api_key.isSome && s.langsmith_tracing

/-- The fixed list in `validate_log_level`. -/
def valid_levels : List String := ["DEBUG", "INFO", "WARNING", "ERROR", "CRITICAL"]

/-- The fixed list in `validate_risk_profile`. -/
def valid_profiles : List String := ["aggressive", "moderate", "conservative"]

/-- Validator `@validator("log_level")`: uppercase, then membership in `valid_levels`. -/
def validate_log_level (v : String) : Except ResolveError String :=
  let v := strUpper v
  if valid_levels.contains v then .ok v
  else .error (.valueError "Log level must be one of" valid_levels)

/-- Validator `@validator("default_risk_profile")`: lowercase, then membership in
`valid_profiles`. -/
def validate_risk_profile (v : String) : Except ResolveError String :=
  let v := strLower v
  if valid_profiles.contains v then .ok v
  else .error (.valueError "Risk profile must be one of" valid_profiles)

/-- Validator `@validator("logs_dir", always=True)`: `v.mkdir(parents=True,
exist_ok=True)`, then return `v`.  Returns the updated filesystem too. -/
def create_logs_dir (fs : FS) (v : Path) : Except ResolveError (Path × FS) :=
  match mkdir fs v true true with
  | .ok fs' => .ok (v, fs')
  | .error e => .error (.osError e)

/-- Base value of `grok_api_key`: required (`Field(...)`), no default. -/
def resolveGrok (i : RawInput) : Except ResolveError String :=
  match i.grok_api_key with
  | none => .error (.missingRequired "grok_api_key")
  | some v => .ok v

/-- Base value then validation of `log_level` (default `"INFO"`; the
validator is not `always=True`, so the default skips it). -/
def resolveLogLevel (i : RawInput) : Except ResolveError String :=
  match i.log_level with
  | none => .ok "INFO"
  | some v => validate_log_level v

/-- Base value then validation of `default_risk_profile` (default
`"moderate"`; the validator is not `always=True`, so the default skips
it). -/
def resolveRiskProfile (i : RawInput) : Except ResolveError String :=
  match i.default_risk_profile with
  | none => .ok "moderate"
  | some v => validate_risk_profile v

/-- Base value of `logs_dir`: the supplied path, else the
`default_factory` result (which recomputes from `__file__`, not from the
resolved `project_root`). -/
def resolvedLogsDir (i : RawInput) : Path := i.logs_dir.getD defaultLogsDir

/-- The error entries a field contributes to the collected
`ValidationError`. -/
def errsOf {α : Type} : Except ResolveError α → List ResolveError
  | .ok _ => []
  | .error e => [e]

/-- The record built when every field resolved. -/
def buildSettings (i : RawInput) (grok ll rp : String) (ld : Path) : Settings where
  grok_api_key := grok
  deepseek_api_key := i.deepseek_api_key
  mcp_server_url := i.mcp_server_url.getD "http://localhost:8000"
  mcp_timeout := i.mcp_timeout.getD 30
  news_sources := i.news_sources.getD defaultNewsSources
  cryptopanic_api_key := i.cryptopanic_api_key
  twitter_bearer_token := i.twitter_bearer_token
  reddit_client_id := i.reddit_client_id
  reddit_client_secret := i.reddit_client_secret
  reddit_user_agent := i.reddit_user_agent.getD "CryptoTradingAgent/1.0"
  langsmith_api_key := i.langsmith_api_key
  langsmith_project := i.langsmith_project.getD "crypto-trading-agents"
  langsmith_tracing := i.langsmith_tracing.getD false
  log_level := ll
  cache_enabled := i.cache_enabled.getD true
  cache_ttl := i.cache_ttl.getD 300
  max_retries := i.max_retries.getD 3
  request_timeout := i.request_timeout.getD 30
  default_chain := i.default_chain.getD "ethereum"
  default_risk_profile := rp
  debate_rounds := i.debate_rounds.getD 3
  project_root := i.project_root.getD defaultProjectRoot
  logs_dir := ld

/-- Outcome of the three fallible plain fields, given the finalized
`logs_dir` value: the built record when all succeed, else the errors
collected in field-declaration order (`grok_api_key` first, then
`log_level`, then `default_risk_profile`). -/
def resolveFields (i : RawInput) (ld : Path) : Except (List ResolveError) Settings :=
  match resolveGrok i, resolveLogLevel i, resolveRiskProfile i with
  | .ok grok, .ok ll, .ok rp => .ok (buildSettings i grok ll rp ld)
  | g, l, r => .error (errsOf g ++ errsOf l ++ errsOf r)

/-- Construction `Settings()` — pydantic: every field gets its base value
(input, default, or a missing-required error), field validators run in
declaration order on supplied values (and `create_logs_dir`, being
`always=True`, runs even on the default), all errors are collected in
declaration order, and the record is produced only when no field
errored.  The filesystem after the `mkdir` side effect is returned in
either case: pydantic runs each field's validation independently, so the
side effect happens even when another field fails.  `logs_dir` is the
last declared field, so its error, if any, is collected last. -/
def resolve (i : RawInput) (fs : FS) : Except (List ResolveError) Settings × FS :=
  match create_logs_dir fs (resolvedLogsDir i) with
  | .ok (ld, fs') => (resolveFields i ld, fs')
  | .error e =>
    (match resolveFields i (resolvedLogsDir i) with
     | .ok _ => .error [e]
     | .error es => .error (es ++ [e]), fs)

/-- `get_settings()` acting on the module global `_settings` and the
filesystem: if the cache is empty, run `Settings()`; a success is stored
in `_settings`, an exception propagates and leaves `_settings` alone.
Returns (result, new `_settings`, new filesystem). -/
def get_settings (st : Option Settings) (i : RawInput) (fs : FS) :
    Except (List ResolveError) Settings × Option Settings × FS :=
  match st with
  | some s => (.ok s, some s, fs)
  | none =>
    match resolve i fs with
    | (.ok s, fs') => (.ok s, some s, fs')
    | (.error e, fs') => (.error e, none, fs')

/-- The module's top level: `_settings = None` followed by
`settings = get_settings()` — importing the module runs `get_settings`
on the empty cache. -/
def moduleTopLevel (i : RawInput) (fs : FS) :
    Except (List ResolveError) Settings × Option Settings × FS :=
  get_settings none i fs

/-- Two successive `get_settings()` calls starting from the empty cache,
with the environment possibly changing between them; yields the two
results. -/
def callTwice (i1 i2 : RawInput) (fs : FS) :
    Except (List ResolveError) Settings × Except (List ResolveError) Settings :=
  match get_settings none i1 fs with
  | (r1, st1, fs1) => (r1, (get_settings st1 i2 fs1).1)

/-- Whether an `Except` is a success. -/
def exceptOk {ε α : Type} : Except ε α → Bool
  | .ok _ => true
  | .error _ => false

/-- Input supplying only the primary credential. -/
def inputK1 : RawInput := { grok_api_key := some "k1" }

/-- Input supplying nothing at all. -/
def emptyInput : RawInput := {}

/-- The settings value that resolving `inputK1` produces. -/
def settingsK1 : Settings := buildSettings inputK1 "k1" "INFO" "moderate" defaultLogsDir

/-- A path is one of its own initial segments. -/
theorem mem_initialSegs_self (p : Path) : p ∈ initialSegs p := by
  induction p with
  | nil => simp [initialSegs]
  | cons c rest ih =>
    simp only [initialSegs, List.mem_cons]
    exact Or.inr (List.mem_map.mpr ⟨rest, ih, rfl⟩)

/-- With `parents=True, exist_ok=True` the logs-directory validator always
succeeds, the target directory exists afterwards, and an already-existing
directory leaves the filesystem unchanged. -/
theorem create_logs_dir_spec (fs : FS) (p : Path) :
    ∃ fs', create_logs_dir fs p = .ok (p, fs') ∧ p ∈ fs' ∧ (p ∈ fs → fs' = fs) := by
  by_cases hp : p ∈ fs
  · exact ⟨fs, by simp [create_logs_dir, mkdir, hp], hp, fun _ => rfl⟩
  · refine ⟨fs ++ (initialSegs p).filter (fun q => decide (q ∉ fs)),
      by simp [create_logs_dir, mkdir, hp], ?_, fun h => absurd h hp⟩
    exact List.mem_append_right _
      (List.mem_filter.mpr ⟨mem_initialSegs_self p, by simpa using hp⟩)

/-- Resolution always reaches the field stage with the finalized `logs_dir`
path, creates that directory, and leaves the filesystem unchanged when
the directory already exists. -/
theorem resolve_spec (i : RawInput) (fs : FS) :
    ∃ fs', resolve i fs = (resolveFields i (resolvedLogsDir i), fs') ∧
      resolvedLogsDir i ∈ fs' ∧ (resolvedLogsDir i ∈ fs → fs' = fs) := by
  obtain ⟨fs', h1, h2, h3⟩ := create_logs_dir_spec fs (resolvedLogsDir i)
  exact ⟨fs', by simp [resolve, h1], h2, h3⟩

/-- Inversion for a successful field stage: all three fallible fields
succeeded and the record is `buildSettings` of their results. -/
theorem resolveFields_ok_iff (i : RawInput) (ld : Path) (s : Settings) :
    resolveFields i ld = .ok s ↔
      ∃ grok ll rp, resolveGrok i = .ok grok ∧ resolveLogLevel i = .ok ll ∧
        resolveRiskProfile i = .ok rp ∧ s = buildSettings i grok ll rp ld := by
  unfold resolveFields
  rcases hg : resolveGrok i with eg | grok <;>
    rcases hl : resolveLogLevel i with el | ll <;>
    rcases hr : resolveRiskProfile i with er | rp <;>
    simp [hg, hl, hr, eq_comm]

/-- A failed `grok_api_key` puts its error at the head of the collected
error list of the field stage. -/
theorem resolveFields_grok_error (i : RawInput) (ld : Path) (e : ResolveError)
    (hg : resolveGrok i = .error e) :
    ∃ es, resolveFields i ld = .error es ∧ e ∈ es := by
  unfold resolveFields
  rw [hg]
  rcases hl : resolveLogLevel i with el | ll <;>
    rcases hr : resolveRiskProfile i with er | rp <;>
    · exact ⟨_, rfl, by simp [errsOf]⟩

/-- A failed `log_level` contributes its error to the collected error list
of the field stage. -/
theorem resolveFields_log_level_error (i : RawInput) (ld : Path) (e : ResolveError)
    (hl : resolveLogLevel i = .error e) :
    ∃ es, resolveFields i ld = .error es ∧ e ∈ es := by
  unfold resolveFields
  rw [hl]
  rcases hg : resolveGrok i with eg | grok <;>
    rcases hr : resolveRiskProfile i with er | rp <;>
    · exact ⟨_, rfl, by simp [errsOf]⟩

/-- C1 (counterexample): starting from the empty cache, a first
`get_settings()` call whose resolution fails (no credential in the
environment), followed by a second call after the environment has gained
the credential: the second call does not fail identically — the failed
resolution is retried because `_settings` was left at `None`, and the
retry succeeds.  This refutes "a failed resolution is never retried" and
"every subsequent call fails identically". -/
theorem C1_counterexample :
    exceptOk (callTwice emptyInput inputK1 []).1 = false ∧
    exceptOk (callTwice emptyInput inputK1 []).2 = true :=
  ⟨rfl, rfl⟩

/-- C1 (amended): the first successful call constructs the settings value
and caches it, and every later call returns the cached value without
re-resolving; a failed resolution is never cached — the cache stays
empty, the error propagates to the caller, and the next call re-runs
resolution from scratch. -/
theorem C1_singleton (i j : RawInput) (fs gs : FS) :
    (∀ s fsA, resolve i fs = (.ok s, fsA) →
      get_settings none i fs = (.ok s, some s, fsA) ∧
      get_settings (some s) j gs = (.ok s, some s, gs)) ∧
    (∀ es fsA, resolve i fs = (.error es, fsA) →
      get_settings none i fs = (.error es, none, fsA)) := by
  refine ⟨fun s fsA h => ⟨?_, rfl⟩, fun es fsA h => ?_⟩
  · simp [get_settings, h]
  · simp [get_settings, h]

/-- C1 witness: the amended singleton behaviour at the concrete input
supplying only the credential. -/
theorem C1_singleton_witness :
    get_settings none inputK1 [] =
      (.ok settingsK1, some settingsK1, [[], ["src"], ["src", "logs"]]) ∧
    get_settings (some settingsK1) emptyInput [] =
      (.ok settingsK1, some settingsK1, []) :=
  (C1_singleton inputK1 emptyInput [] []).1 settingsK1
    [[], ["src"], ["src", "logs"]] rfl

/-- C2 (counterexample): an input supplying the empty string as
`grok_api_key` resolves successfully, and the resolved primary
credential is the empty string — refuting "resolution fails on any input
that would leave it absent or empty". -/
theorem C2_counterexample :
    (resolve { grok_api_key := some "" } []).1 =
      .ok (buildSettings { grok_api_key := some "" } "" "INFO" "moderate" defaultLogsDir) ∧
    (buildSettings { grok_api_key := some "" } "" "INFO" "moderate"
      defaultLogsDir).grok_api_key = "" :=
  ⟨rfl, rfl⟩

/-- C2 (amended): whenever resolution succeeds, the resolved
`grok_api_key` is exactly the supplied string — which must be present
but may be empty — and resolution fails on any input in which it is
absent. -/
theorem C2_grok_key (i : RawInput) (fs : FS) :
    (∀ s, (resolve i fs).1 = .ok s → i.grok_api_key = some s.grok_api_key) ∧
    (i.grok_api_key = none → ∀ s, (resolve i fs).1 ≠ .ok s) := by
  obtain ⟨fs', hr, -, -⟩ := resolve_spec i fs
  constructor
  · intro s hok
    rw [hr] at hok
    replace hok : resolveFields i (resolvedLogsDir i) = .ok s := hok
    obtain ⟨grok, ll, rp, hg, -, -, hs⟩ := (resolveFields_ok_iff i _ s).mp hok
    subst hs
    unfold resolveGrok at hg
    cases hgi : i.grok_api_key with
    | none => rw [hgi] at hg; exact absurd hg (by simp)
    | some v =>
      rw [hgi] at hg
      injection hg with hv
      simp [buildSettings, hv]
  · intro hnone s hok
    rw [hr] at hok
    replace hok : resolveFields i (resolvedLogsDir i) = .ok s := hok
    obtain ⟨grok, -, -, hg, -, -, -⟩ := (resolveFields_ok_iff i _ s).mp hok
    unfold resolveGrok at hg
    rw [hnone] at hg
    exact absurd hg (by simp)

/-- C2 witness: the amended credential claim at the concrete input
supplying the credential "k1". -/
theorem C2_grok_key_witness : inputK1.grok_api_key = some settingsK1.grok_api_key :=
  (C2_grok_key inputK1 []).1 settingsK1 rfl

/-- Input supplying the credential and an explicit `project_root` only. -/
def inputCustomRoot : RawInput :=
  { grok_api_key := some "k1", project_root := some ["custom"] }

/-- The settings value that resolving `inputCustomRoot` produces. -/
def settingsCustomRoot : Settings :=
  buildSettings inputCustomRoot "k1" "INFO" "moderate" defaultLogsDir

/-- C3 (counterexample): supplying `project_root` without `logs_dir`
resolves `logs_dir` to the module-derived default `src/logs`, not to the
`logs` subdirectory of the supplied root — the `default_factory` of
`logs_dir` recomputes from `__file__` and never consults the resolved
`project_root`. -/
theorem C3_counterexample :
    (resolve inputCustomRoot []).1 = .ok settingsCustomRoot ∧
    settingsCustomRoot.project_root = ["custom"] ∧
    inputCustomRoot.logs_dir = none ∧
    settingsCustomRoot.logs_dir ≠ pathChild settingsCustomRoot.project_root "logs" :=
  ⟨rfl, rfl, rfl, by decide⟩

/-- C3 (amended): for every successful resolution, the logs directory is
the explicitly supplied value when one is given, and otherwise the
module-derived default root extended by "logs"; when neither
`project_root` nor `logs_dir` is overridden it coincides with
`project_root/logs`, but a supplied `project_root` alone does not move
`logs_dir`. -/
theorem C3_logs_dir (i : RawInput) (fs : FS) :
    ∀ s, (resolve i fs).1 = .ok s →
      s.logs_dir = i.logs_dir.getD (pathChild defaultProjectRoot "logs") ∧
      (i.project_root = none → i.logs_dir = none →
        s.logs_dir = pathChild s.project_root "logs") := by
  obtain ⟨fs', hr, -, -⟩ := resolve_spec i fs
  intro s hok
  rw [hr] at hok
  replace hok : resolveFields i (resolvedLogsDir i) = .ok s := hok
  obtain ⟨grok, ll, rp, -, -, -, hs⟩ := (resolveFields_ok_iff i _ s).mp hok
  subst hs
  constructor
  · simp [buildSettings, resolvedLogsDir, defaultLogsDir, defaultProjectRoot]
  · intro hpr hld
    simp [buildSettings, resolvedLogsDir, hpr, hld, defaultLogsDir,
      defaultProjectRoot, pathChild]

/-- C3 witness: the amended logs-directory claim at the concrete input
supplying only the credential, where no path is overridden. -/
theorem C3_logs_dir_witness :
    settingsK1.logs_dir = inputK1.logs_dir.getD (pathChild defaultProjectRoot "logs") ∧
    settingsK1.logs_dir = pathChild settingsK1.project_root "logs" :=
  ⟨(C3_logs_dir inputK1 [] settingsK1 rfl).1,
   (C3_logs_dir inputK1 [] settingsK1 rfl).2 rfl rfl⟩

/-- C4 (confirmed): any input omitting `grok_api_key` fails with a
missing-required-field error naming the field, and no settings record is
produced. -/
theorem C4_missing_required (i : RawInput) (fs : FS) (h : i.grok_api_key = none) :
    ∃ es, (resolve i fs).1 = .error es ∧
      ResolveError.missingRequired "grok_api_key" ∈ es ∧
      ∀ s, (resolve i fs).1 ≠ .ok s := by
  obtain ⟨fs', hr, -, -⟩ := resolve_spec i fs
  have hg : resolveGrok i = .error (.missingRequired "grok_api_key") := by
    unfold resolveGrok; rw [h]
  obtain ⟨es, hes, hmem⟩ := resolveFields_grok_error i (resolvedLogsDir i) _ hg
  refine ⟨es, ?_, hmem, ?_⟩
  · rw [hr]; exact hes
  · intro s hok
    rw [hr] at hok
    replace hok : resolveFields i (resolvedLogsDir i) = .ok s := hok
    rw [hes] at hok
    exact absurd hok (by simp)

/-- C4 witness: the missing-credential failure at the concrete empty
input. -/
theorem C4_missing_required_witness :
    ∃ es, (resolve emptyInput []).1 = .error es ∧
      ResolveError.missingRequired "grok_api_key" ∈ es ∧
      ∀ s, (resolve emptyInput []).1 ≠ .ok s :=
  C4_missing_required emptyInput [] rfl

/-- C5 (confirmed): a supplied log level whose uppercasing lies in the
fixed five-level set validates to the uppercase form, which every
successful resolution stores; a supplied log level outside the set makes
validation — and with it the whole resolution — fail with an error whose
message lists exactly the five legal levels. -/
theorem C5_log_level (v : String) (i : RawInput) (fs : FS) (h : i.log_level = some v) :
    (valid_levels.contains (strUpper v) = true →
      validate_log_level v = .ok (strUpper v) ∧
      ∀ s, (resolve i fs).1 = .ok s → s.log_level = strUpper v) ∧
    (valid_levels.contains (strUpper v) = false →
      validate_log_level v =
        .error (.valueError "Log level must be one of"
          ["DEBUG", "INFO", "WARNING", "ERROR", "CRITICAL"]) ∧
      ∃ es, (resolve i fs).1 = .error es ∧
        ResolveError.valueError "Log level must be one of"
          ["DEBUG", "INFO", "WARNING", "ERROR", "CRITICAL"] ∈ es) := by
  obtain ⟨fs', hr, -, -⟩ := resolve_spec i fs
  constructor
  · intro hin
    have hin' : strUpper v ∈ valid_levels := by simpa using hin
    have hv : validate_log_level v = .ok (strUpper v) := by
      unfold validate_log_level
      simp [hin']
    refine ⟨hv, fun s hok => ?_⟩
    rw [hr] at hok
    replace hok : resolveFields i (resolvedLogsDir i) = .ok s := hok
    obtain ⟨grok, ll, rp, -, hl, -, hs⟩ := (resolveFields_ok_iff i _ s).mp hok
    subst hs
    unfold resolveLogLevel at hl
    rw [h] at hl
    replace hl : validate_log_level v = Except.ok ll := hl
    rw [hv] at hl
    injection hl with hll
    simp [buildSettings, hll]
  · intro hout
    have hout' : strUpper v ∉ valid_levels := by simpa using hout
    have hv : validate_log_level v =
        .error (.valueError "Log level must be one of" valid_levels) := by
      unfold validate_log_level
      simp [hout']
    have hl : resolveLogLevel i =
        .error (.valueError "Log level must be one of" valid_levels) := by
      unfold resolveLogLevel; rw [h]; exact hv
    obtain ⟨es, hes, hmem⟩ := resolveFields_log_level_error i (resolvedLogsDir i) _ hl
    exact ⟨hv, es, by rw [hr]; exact hes, hmem⟩

/-- Input supplying the credential and the lowercase log level "info". -/
def inputInfo : RawInput := { grok_api_key := some "k1", log_level := some "info" }

/-- The settings value that resolving `inputInfo` produces. -/
def settingsInfo : Settings := buildSettings inputInfo "k1" "INFO" "moderate" defaultLogsDir

/-- C5 witness: the log-level normalization at the concrete lowercase
input "info". -/
theorem C5_log_level_witness : settingsInfo.log_level = strUpper "info" :=
  ((C5_log_level "info" inputInfo [] rfl).1 (by decide)).2 settingsInfo rfl

/-- C6 (confirmed): a supplied risk profile whose lowercasing lies in
{aggressive, moderate, conservative} validates to the lowercase form,
which every successful resolution stores; a supplied risk profile
outside the set makes resolution fail. -/
theorem C6_risk_profile (v : String) (i : RawInput) (fs : FS)
    (h : i.default_risk_profile = some v) :
    (valid_profiles.contains (strLower v) = true →
      validate_risk_profile v = .ok (strLower v) ∧
      ∀ s, (resolve i fs).1 = .ok s → s.default_risk_profile = strLower v) ∧
    (valid_profiles.contains (strLower v) = false →
      ∀ s, (resolve i fs).1 ≠ .ok s) := by
  obtain ⟨fs', hr, -, -⟩ := resolve_spec i fs
  constructor
  · intro hin
    have hin' : strLower v ∈ valid_profiles := by simpa using hin
    have hv : validate_risk_profile v = .ok (strLower v) := by
      unfold validate_risk_profile
      simp [hin']
    refine ⟨hv, fun s hok => ?_⟩
    rw [hr] at hok
    replace hok : resolveFields i (resolvedLogsDir i) = .ok s := hok
    obtain ⟨grok, ll, rp, -, -, hrp, hs⟩ := (resolveFields_ok_iff i _ s).mp hok
    subst hs
    unfold resolveRiskProfile at hrp
    rw [h] at hrp
    replace hrp : validate_risk_profile v = Except.ok rp := hrp
    rw [hv] at hrp
    injection hrp with hrr
    simp [buildSettings, hrr]
  · intro hout s hok
    have hout' : strLower v ∉ valid_profiles := by simpa using hout
    rw [hr] at hok
    replace hok : resolveFields i (resolvedLogsDir i) = .ok s := hok
    obtain ⟨grok, ll, rp, -, -, hrp, -⟩ := (resolveFields_ok_iff i _ s).mp hok
    unfold resolveRiskProfile at hrp
    rw [h] at hrp
    replace hrp : validate_risk_profile v = Except.ok rp := hrp
    unfold validate_risk_profile at hrp
    simp [hout'] at hrp

/-- Input supplying the credential and the uppercase risk profile
"AGGRESSIVE". -/
def inputAggr : RawInput :=
  { grok_api_key := some "k1", default_risk_profile := some "AGGRESSIVE" }

/-- The settings value that resolving `inputAggr` produces. -/
def settingsAggr : Settings :=
  buildSettings inputAggr "k1" "INFO" "aggressive" defaultLogsDir

/-- C6 witness: the risk-profile normalization at the concrete uppercase
input "AGGRESSIVE". -/
theorem C6_risk_profile_witness :
    settingsAggr.default_risk_profile = strLower "AGGRESSIVE" :=
  ((C6_risk_profile "AGGRESSIVE" inputAggr [] rfl).1 (by decide)).2 settingsAggr rfl

/-- C7 (confirmed): by the time resolution completes, the finalized logs
directory exists in the filesystem; running the creation validator again
on the post-resolution filesystem succeeds with the filesystem unchanged
("already exists" is success, not an error); and re-resolving on the
post-resolution filesystem yields the same outcome and leaves the
filesystem unchanged. -/
theorem C7_logs_dir_idempotent (i : RawInput) (fs : FS) :
    resolvedLogsDir i ∈ (resolve i fs).2 ∧
    create_logs_dir ((resolve i fs).2) (resolvedLogsDir i) =
      .ok (resolvedLogsDir i, (resolve i fs).2) ∧
    resolve i ((resolve i fs).2) = ((resolve i fs).1, (resolve i fs).2) := by
  obtain ⟨fs', hr, hmem, -⟩ := resolve_spec i fs
  obtain ⟨fs3, hr3, -, hsame3⟩ := resolve_spec i fs'
  obtain ⟨fs2, h2, -, hsame2⟩ := create_logs_dir_spec fs' (resolvedLogsDir i)
  have e3 : fs3 = fs' := hsame3 hmem
  have e2 : fs2 = fs' := hsame2 hmem
  subst e3
  subst e2
  rw [hr]
  exact ⟨hmem, h2, hr3⟩

/-- C8 (confirmed): with no feed-source input the resolved list is
exactly the three default feeds, in order; with a supplied feed-source
list the resolved list is exactly the supplied one, which may be any
list including the empty list. -/
theorem C8_news_sources (i : RawInput) (fs : FS) :
    (i.news_sources = none → ∀ s, (resolve i fs).1 = .ok s →
      s.news_sources =
        ["https://cryptonews.com/news/feed/",
         "https://www.coindesk.com/arc/outboundfeeds/rss/",
         "https://cointelegraph.com/rss"]) ∧
    (∀ l, i.news_sources = some l → ∀ s, (resolve i fs).1 = .ok s →
      s.news_sources = l) := by
  obtain ⟨fs', hr, -, -⟩ := resolve_spec i fs
  constructor
  · intro hnone s hok
    rw [hr] at hok
    replace hok : resolveFields i (resolvedLogsDir i) = .ok s := hok
    obtain ⟨grok, ll, rp, -, -, -, hs⟩ := (resolveFields_ok_iff i _ s).mp hok
    subst hs
    simp [buildSettings, hnone, defaultNewsSources]
  · intro l hsome s hok
    rw [hr] at hok
    replace hok : resolveFields i (resolvedLogsDir i) = .ok s := hok
    obtain ⟨grok, ll, rp, -, -, -, hs⟩ := (resolveFields_ok_iff i _ s).mp hok
    subst hs
    simp [buildSettings, hsome]

/-- Input supplying the credential and an explicitly empty feed list. -/
def inputEmptyNews : RawInput :=
  { grok_api_key := some "k1", news_sources := some [] }

/-- The settings value that resolving `inputEmptyNews` produces. -/
def settingsEmptyNews : Settings :=
  buildSettings inputEmptyNews "k1" "INFO" "moderate" defaultLogsDir

/-- C8 witness: the default three-feed list with no feed input, and the
empty resolved list with an explicitly empty feed input. -/
theorem C8_news_sources_witness :
    settingsK1.news_sources =
      ["https://cryptonews.com/news/feed/",
       "https://www.coindesk.com/arc/outboundfeeds/rss/",
       "https://cointelegraph.com/rss"] ∧
    settingsEmptyNews.news_sources = [] :=
  ⟨(C8_news_sources inputK1 []).1 rfl settingsK1 rfl,
   (C8_news_sources inputEmptyNews []).2 [] rfl settingsEmptyNews rfl⟩

/-- C9 (confirmed): `has_reddit_config` returns true exactly when both
`reddit_client_id` and `reddit_client_secret` are present; with only one
of the two present (or neither) it returns false. -/
theorem C9_has_reddit_config (s : Settings) :
    s.has_reddit_config = true ↔
      s.reddit_client_id ≠ none ∧ s.reddit_client_secret ≠ none := by
  cases hid : s.reddit_client_id <;> cases hsec : s.reddit_client_secret <;>
    simp [Settings.has_reddit_config, hid, hsec]

/-- C10 (confirmed): the module's top level itself calls
`get_settings()`, so importing the module performs the full resolution
eagerly: the import-time result is exactly the resolution result
(including any failure), the import-time filesystem is the
post-resolution filesystem, and the logs directory exists once
the import completes — before any consumer calls the accessor. -/
theorem C10_eager_resolution (i : RawInput) (fs : FS) :
    moduleTopLevel i fs = get_settings none i fs ∧
    (moduleTopLevel i fs).1 = (resolve i fs).1 ∧
    (moduleTopLevel i fs).2.2 = (resolve i fs).2 ∧
    resolvedLogsDir i ∈ (moduleTopLevel i fs).2.2 := by
  obtain ⟨fs', hr, hmem, -⟩ := resolve_spec i fs
  rcases hf : resolveFields i (resolvedLogsDir i) with es | s <;>
    rw [hf] at hr <;>
    refine ⟨rfl, ?_, ?_, ?_⟩ <;>
    simp [moduleTopLevel, get_settings, hr, hmem]

end CryptoSettings
